import Mathlib

/-!
Verification of the request-validation and error-classification core of the
alle-ai-node client library.

The TypeScript source manipulates dynamically typed JavaScript values, so the
embedding starts from a small model of JavaScript runtime values (`Js`),
together with the JavaScript primitives the source relies on: truthiness,
`typeof`, `Array.isArray`, property access, `String(...)` coercion,
`JSON.parse` and `JSON.stringify`.  JavaScript numbers are modelled as
rationals (`Rat`), which keeps `Number.isInteger` and the order comparisons
of the source meaningful.  Fallible operations return `Option`/`Except`;
a thrown JavaScript `TypeError` that the source does not catch is modelled
explicitly where a claim depends on it.
-/

/-- A model of a JavaScript runtime value.  `undef` is `undefined`; object
fields are kept in insertion order with distinct keys (as JavaScript
enumerates them). -/
inductive Js where
  | undefined : Js
  | null : Js
  | bool (b : Bool) : Js
  | num (q : Rat) : Js
  | str (s : String) : Js
  | arr (xs : List Js) : Js
  | obj (fields : List (String × Js)) : Js
deriving Repr

/-- JavaScript truthiness: `undefined`, `null`, `false`, `0` and `""` are
falsy; every array and object is truthy. -/
def jsTruthy : Js → Bool
  | .undefined => false
  | .null => false
  | .bool b => b
  | .num q => !(q == 0)
  | .str s => !(s == "")
  | .arr _ => true
  | .obj _ => true

/-- The JavaScript `typeof` operator (note `typeof null === "object"` and
`typeof [] === "object"`). -/
def Js.typeofStr : Js → String
  | .undefined => "undefined"
  | .null => "object"
  | .bool _ => "boolean"
  | .num _ => "number"
  | .str _ => "string"
  | .arr _ => "object"
  | .obj _ => "object"

/-- `Array.isArray`. -/
def jsIsArray : Js → Bool
  | .arr _ => true
  | _ => false

/-- Length of an array value (only used on values already known to be
arrays). -/
def jsArrLen : Js → Nat
  | .arr xs => xs.length
  | _ => 0

/-- The elements of an array value. -/
def jsArrElems : Js → List Js
  | .arr xs => xs
  | _ => []

/-- Property read `v[key]` on a non-null, non-undefined value: objects yield
the stored field or `undefined`; every other value (including arrays, whose
string-named properties are never set by this code) yields `undefined`. -/
def jsGet : Js → String → Js
  | .obj fields, key =>
      match fields.find? (fun p => p.1 == key) with
      | some p => p.2
      | none => .undefined
  | _, _ => .undefined

/-- The JavaScript `in` operator as the source uses it (`"system" in msg`):
key membership for objects, `false` for arrays (no string-named properties
are ever set). -/
def jsHasKey : Js → String → Bool
  | .obj fields, key => fields.any (fun p => p.1 == key)
  | _, _ => false

/-- `Object.values`. -/
def jsObjValues : Js → List Js
  | .obj fields => fields.map Prod.snd
  | _ => []

/-- `array.every(m => typeof m === "string")`-style check; `true` on
non-arrays (the source only calls it after `Array.isArray`). -/
def jsEvery (v : Js) (p : Js → Bool) : Bool :=
  match v with
  | .arr xs => xs.all p
  | _ => true

/-- Rendering of a JavaScript number by `String(...)`; the source only ever
renders integers. -/
def ratToString (q : Rat) : String :=
  if q.den == 1 then toString q.num else toString q

mutual
/-- The JavaScript `String(...)` coercion, applied by the `Error`
constructor to its `message` argument. -/
def jsToString : Js → String
  | .undefined => "undefined"
  | .null => "null"
  | .bool true => "true"
  | .bool false => "false"
  | .num q => ratToString q
  | .str s => s
  | .arr xs => jsToStringElems xs
  | .obj _ => "[object Object]"

/-- `Array.prototype.toString` joins elements with `","`, rendering `null`
and `undefined` elements as the empty string. -/
def jsToStringElems : List Js → String
  | [] => ""
  | [x] =>
      match x with
      | .null => ""
      | .undefined => ""
      | v => jsToString v
  | x :: xs =>
      (match x with
       | .null => ""
       | .undefined => ""
       | v => jsToString v) ++ "," ++ jsToStringElems xs
end

/-- The double-quote character, kept as a named constant. -/
def quoteChar : Char := Char.ofNat 34

/-- The backslash character. -/
def backslashChar : Char := Char.ofNat 92

/-- Opening curly brace. -/
def lbraceChar : Char := Char.ofNat 123

/-- Closing curly brace. -/
def rbraceChar : Char := Char.ofNat 125

/-- The apostrophe character (used inside some validation messages). -/
def apos : String := String.singleton (Char.ofNat 39)

/-- JSON string escaping for `JSON.stringify` (quote, backslash and the
common control characters). -/
def jsonEscapeChar (c : Char) : List Char :=
  if c = quoteChar then [backslashChar, quoteChar]
  else if c = backslashChar then [backslashChar, backslashChar]
  else if c = '\n' then [backslashChar, 'n']
  else if c = '\t' then [backslashChar, 't']
  else if c = '\r' then [backslashChar, 'r']
  else [c]

/-- A JSON-quoted string literal. -/
def jsonQuote (s : String) : String :=
  String.singleton quoteChar ++ String.mk (s.data.flatMap jsonEscapeChar) ++
    String.singleton quoteChar

mutual
/-- A model of the JavaScript `JSON.stringify` builtin (only reached by the
source on values produced by `JSON.parse`). -/
def jsonStringify : Js → String
  | .undefined => "null"
  | .null => "null"
  | .bool true => "true"
  | .bool false => "false"
  | .num q => ratToString q
  | .str s => jsonQuote s
  | .arr xs => "[" ++ String.intercalate "," (jsonStringifyArr xs) ++ "]"
  | .obj fields =>
      String.singleton lbraceChar ++
        String.intercalate "," (jsonStringifyFields fields) ++
        String.singleton rbraceChar

/-- Array elements for `JSON.stringify`; `undefined` elements render as
`null`. -/
def jsonStringifyArr : List Js → List String
  | [] => []
  | .undefined :: rest => "null" :: jsonStringifyArr rest
  | v :: rest => jsonStringify v :: jsonStringifyArr rest

/-- Object members for `JSON.stringify`; members whose value is `undefined`
are omitted. -/
def jsonStringifyFields : List (String × Js) → List String
  | [] => []
  | (_, .undefined) :: rest => jsonStringifyFields rest
  | (k, v) :: rest => (jsonQuote k ++ ":" ++ jsonStringify v) :: jsonStringifyFields rest
end

/-- Whitespace accepted by the JSON grammar. -/
def isJsonWs (c : Char) : Bool :=
  c = ' ' || c = '\t' || c = '\n' || c = '\r'

/-- Skip JSON whitespace. -/
def skipWs : List Char → List Char
  | [] => []
  | c :: rest => if isJsonWs c then skipWs rest else c :: rest

/-- Value of a digit string. -/
def digitsToNat (ds : List Char) : Nat :=
  ds.foldl (fun a c => a * 10 + (c.toNat - 48)) 0

/-- Replace or append a field, the way assignment to a JavaScript object key
behaves (first occurrence keeps its position, later value wins). -/
def objInsert : List (String × Js) → String → Js → List (String × Js)
  | [], k, v => [(k, v)]
  | (k', v') :: rest, k, v =>
      if k' == k then (k', v) :: rest else (k', v') :: objInsert rest k v

/-- Collapse duplicate keys the way `JSON.parse` does (later wins). -/
def normalizeObj (fields : List (String × Js)) : List (String × Js) :=
  fields.foldl (fun acc p => objInsert acc p.1 p.2) []

/-- Read the characters of a JSON string literal after the opening quote;
returns the decoded characters and the input after the closing quote.
`\uXXXX` escapes are not decoded by this model. -/
def parseStrChars : List Char → Option (List Char × List Char)
  | [] => none
  | c :: rest =>
      if c = quoteChar then some ([], rest)
      else if c = backslashChar then
        match rest with
        | [] => none
        | e :: rest2 =>
            let dec : Option Char :=
              if e = quoteChar then some quoteChar
              else if e = backslashChar then some backslashChar
              else if e = '/' then some '/'
              else if e = 'n' then some '\n'
              else if e = 't' then some '\t'
              else if e = 'r' then some '\r'
              else if e = 'b' then some (Char.ofNat 8)
              else if e = 'f' then some (Char.ofNat 12)
              else none
            match dec with
            | none => none
            | some d =>
                match parseStrChars rest2 with
                | none => none
                | some (cs, r) => some (d :: cs, r)
      else
        match parseStrChars rest with
        | none => none
        | some (cs, r) => some (c :: cs, r)

/-- Parse a JSON number (integer or decimal fraction; exponents are not
recognised by this model). -/
def parseNumber (cs : List Char) : Option (Rat × List Char) :=
  let p := match cs with
    | c :: rest => if c = '-' then (true, rest) else (false, cs)
    | [] => (false, cs)
  let neg := p.1
  let ds := p.2.takeWhile Char.isDigit
  let cs2 := p.2.dropWhile Char.isDigit
  if ds.isEmpty then none
  else
    let ip : Rat := (digitsToNat ds : Nat)
    match cs2 with
    | '.' :: cs3 =>
        let fs := cs3.takeWhile Char.isDigit
        let cs4 := cs3.dropWhile Char.isDigit
        if fs.isEmpty then none
        else
          let fv : Rat := (digitsToNat fs : Nat) / ((10 : Rat) ^ fs.length)
          some ((if neg then -(ip + fv) else ip + fv), cs4)
    | _ => some ((if neg then -ip else ip), cs2)

/-- Match a literal suffix (`rue` of `true`, and so on). -/
def expectChars : List Char → List Char → Option (List Char)
  | [], cs => some cs
  | _ :: _, [] => none
  | e :: es, c :: cs => if c = e then expectChars es cs else none

mutual
/-- Fuel-indexed recursive-descent parser for a JSON value; a model of the
JavaScript `JSON.parse` builtin. -/
def parseJsVal : Nat → List Char → Option (Js × List Char)
  | 0, _ => none
  | fuel + 1, cs =>
      match skipWs cs with
      | [] => none
      | c :: rest =>
          if c = lbraceChar then
            match skipWs rest with
            | c2 :: r2 =>
                if c2 = rbraceChar then some (Js.obj [], r2)
                else
                  match parseMembers fuel rest with
                  | none => none
                  | some (fs, r) => some (Js.obj (normalizeObj fs), r)
            | [] => none
          else if c = '[' then
            match skipWs rest with
            | ']' :: r2 => some (Js.arr [], r2)
            | _ =>
                match parseElems fuel rest with
                | none => none
                | some (xs, r) => some (Js.arr xs, r)
          else if c = quoteChar then
            match parseStrChars rest with
            | none => none
            | some (chars, r) => some (Js.str (String.mk chars), r)
          else if c = 't' then
            match expectChars ['r', 'u', 'e'] rest with
            | none => none
            | some r => some (Js.bool true, r)
          else if c = 'f' then
            match expectChars ['a', 'l', 's', 'e'] rest with
            | none => none
            | some r => some (Js.bool false, r)
          else if c = 'n' then
            match expectChars ['u', 'l', 'l'] rest with
            | none => none
            | some r => some (Js.null, r)
          else
            match parseNumber (c :: rest) with
            | none => none
            | some (q, r) => some (Js.num q, r)

/-- Members of a JSON object, up to and including the closing brace. -/
def parseMembers : Nat → List Char → Option (List (String × Js) × List Char)
  | 0, _ => none
  | fuel + 1, cs =>
      match skipWs cs with
      | [] => none
      | c :: rest =>
          if c = quoteChar then
            match parseStrChars rest with
            | none => none
            | some (kcs, r1) =>
                match skipWs r1 with
                | ':' :: r2 =>
                    match parseJsVal fuel r2 with
                    | none => none
                    | some (v, r3) =>
                        match skipWs r3 with
                        | ',' :: r4 =>
                            match parseMembers fuel r4 with
                            | none => none
                            | some (fs, r5) => some ((String.mk kcs, v) :: fs, r5)
                        | c2 :: r4 =>
                            if c2 = rbraceChar then some ([(String.mk kcs, v)], r4)
                            else none
                        | [] => none
                | _ => none
          else none

/-- Elements of a JSON array, up to and including the closing bracket. -/
def parseElems : Nat → List Char → Option (List Js × List Char)
  | 0, _ => none
  | fuel + 1, cs =>
      match parseJsVal fuel cs with
      | none => none
      | some (v, r) =>
          match skipWs r with
          | ',' :: r2 =>
              match parseElems fuel r2 with
              | none => none
              | some (xs, r3) => some (v :: xs, r3)
          | ']' :: r2 => some ([v], r2)
          | _ => none
end

/-- `JSON.parse`: parse a complete JSON document; `none` models the thrown
`SyntaxError`. -/
def jsonParse (s : String) : Option Js :=
  match parseJsVal (s.length + 2) s.data with
  | none => none
  | some (v, rest) => if (skipWs rest).isEmpty then some v else none

/-- Substring occurrence over character lists. -/
def containsSub : List Char → List Char → Bool
  | [], pat => pat.isEmpty
  | c :: rest, pat => pat.isPrefixOf (c :: rest) || containsSub rest pat

/-- `haystack.includes(needle)` on strings (all needles in the source are
non-empty literals). -/
def jsIncludesStr (s pat : String) : Bool :=
  containsSub s.data pat.data

/-- The kinds of the closed typed-error hierarchy (`src/core/errors.ts`):
one constructor per subclass of `AlleAIError`. -/
inductive ErrKind where
  | validation
  | authentication
  | invalidRequest
  | rateLimit
  | serviceUnavailable
  | connection
  | api
deriving Repr, DecidableEq

/-- A constructed typed error: the base `AlleAIError` payload.  `message` is
the string the JavaScript `Error` constructor stores (after `String(...)`
coercion); `details` is the raw value passed as the details payload. -/
structure AlleError where
  kind : ErrKind
  message : String
  code : String
  status : Option Nat
  details : Option Js
deriving Repr

/-- `new ValidationError(message)` — code defaults to `VALIDATION_ERROR`,
status is left undefined. -/
def mkValidationError (message : String) : AlleError :=
  ⟨.validation, message, "VALIDATION_ERROR", none, none⟩

/-- `new AuthenticationError(message, code, details)` — status is always
401 regardless of the triggering HTTP status. -/
def mkAuthenticationError (message code : String) (details : Option Js) : AlleError :=
  ⟨.authentication, message, code, some 401, details⟩

/-- `new InvalidRequestError(message, code, details)` — status 400. -/
def mkInvalidRequestError (message code : String) (details : Option Js) : AlleError :=
  ⟨.invalidRequest, message, code, some 400, details⟩

/-- `new RateLimitError(message, code, details)` — status 429. -/
def mkRateLimitError (message code : String) (details : Option Js) : AlleError :=
  ⟨.rateLimit, message, code, some 429, details⟩

/-- `new ServiceUnavailableError(message, code, details)` — status is always
503 regardless of the triggering HTTP status. -/
def mkServiceUnavailableError (message code : String) (details : Option Js) : AlleError :=
  ⟨.serviceUnavailable, message, code, some 503, details⟩

/-- `new ConnectionError(message, code, details)` — status undefined. -/
def mkConnectionError (message code : String) (details : Option Js) : AlleError :=
  ⟨.connection, message, code, none, details⟩

/-- `new APIError(message, code, status, details)`. -/
def mkAPIError (message code : String) (status : Option Nat) (details : Option Js) : AlleError :=
  ⟨.api, message, code, status, details⟩

/-- The fixed HTML/unparsable-body fallback message of
`handleErrorResponse`. -/
def fallbackMsg : String :=
  "Server responded with unknown format. Please try again later."

/-- `text.includes("<!DOCTYPE html>") || text.includes("<html")`. -/
def htmlLike (s : String) : Bool :=
  jsIncludesStr s "<!DOCTYPE html>" || jsIncludesStr s "<html"

/-- `errorJson.details?.raw`: property access plus optional chaining.
`Except.error` models the `TypeError` thrown when `errorJson` itself is
`null` (for example when the body is the literal `null`). -/
def detailsRaw (j : Js) : Except Unit Js :=
  match j with
  | .null => .error ()
  | .undefined => .error ()
  | _ =>
      match jsGet j "details" with
      | .null => .ok .undefined
      | .undefined => .ok .undefined
      | d => .ok (jsGet d "raw")

/-- The condition `raw && (raw.includes("<!DOCTYPE html>") ||
raw.includes("<html"))`.  Calling `.includes` on a truthy value that is
neither a string nor an array throws, modelled by `Except.error`; on an
array, `Array.prototype.includes` compares elements for equality with the
needle. -/
def rawHtml (raw : Js) : Except Unit Bool :=
  if jsTruthy raw then
    match raw with
    | .str s => .ok (htmlLike s)
    | .arr xs =>
        .ok (xs.any (fun x => match x with
              | .str s => s == "<!DOCTYPE html>" || s == "<html"
              | _ => false))
    | _ => .error ()
  else .ok false

/-- The whole `errorJson.details?.raw && (...includes...)` condition of the
inner `try` block. -/
def rawHtmlOutcome (j : Js) : Except Unit Bool :=
  match detailsRaw j with
  | .error e => .error e
  | .ok raw => rawHtml raw

/-- Derivation of `errorMessage` in `handleErrorResponse`
(`src/core/AlleAI.ts`): HTML sniffing on the raw body, then `JSON.parse`
inside a `try` whose `catch` substitutes the fixed fallback, then the
`details?.raw` HTML check, then the `message`/`error` fields; when the body
parses but carries none of these, `errorMessage` keeps its initial value
`Request failed with status: {status}`.  The result is the raw JavaScript
value assigned to `errorMessage` (a string in every branch except a
non-string `message` field). -/
def deriveErrorMessage (status : Nat) (body : String) : Js :=
  if htmlLike body then Js.str fallbackMsg
  else
    match jsonParse body with
    | none => Js.str fallbackMsg
    | some j =>
        match rawHtmlOutcome j with
        | .error _ => Js.str fallbackMsg
        | .ok true => Js.str fallbackMsg
        | .ok false =>
            if jsTruthy (jsGet j "message") then jsGet j "message"
            else if jsTruthy (jsGet j "error") then
              match jsGet j "error" with
              | Js.str s => Js.str s
              | e => Js.str (jsonStringify e)
            else Js.str ("Request failed with status: " ++ toString status)

/-- The status-code switch of `handleErrorResponse`: builds the
`errorResponse = \x7bmessage, status\x7d` details object and throws the typed error
selected by the table.  (The enclosing `response.text()` failure branch is
not modelled: this embedding receives the body as a value.) -/
def handleErrorResponse (status : Nat) (body : String) : AlleError :=
  let errorMessage := jsToString (deriveErrorMessage status body)
  let errorResponse := Js.obj
    [("message", deriveErrorMessage status body), ("status", Js.num status)]
  if status = 400 then mkInvalidRequestError errorMessage "INVALID_REQUEST" (some errorResponse)
  else if status = 401 then mkAuthenticationError errorMessage "AUTH_ERROR" (some errorResponse)
  else if status = 403 then mkAuthenticationError errorMessage "PERMISSION_DENIED" (some errorResponse)
  else if status = 404 then mkAPIError errorMessage "RESOURCE_NOT_FOUND" (some status) (some errorResponse)
  else if status = 429 then mkRateLimitError errorMessage "RATE_LIMIT" (some errorResponse)
  else if status = 500 ∨ status = 502 ∨ status = 503 ∨ status = 504 then
    mkServiceUnavailableError errorMessage "SERVICE_ERROR" (some errorResponse)
  else mkAPIError errorMessage ("API_ERROR_" ++ toString status) (some status) (some errorResponse)

/-- A thrown JavaScript exception reaching the `catch` of
`makeRequest`/`makeFormDataRequest`: a typed `AlleAIError`, a `TypeError`
with its message, or any other error with its message. -/
inductive JsException where
  | alleError (e : AlleError)
  | typeError (msg : String)
  | otherError (msg : String)
deriving Repr

/-- `error instanceof Error ? error.message : String(error)` for the
exceptions of this model (all carry a message). -/
def excMessage : JsException → String
  | .alleError e => e.message
  | .typeError m => m
  | .otherError m => m

/-- The outcome of the `fetch` collaborator: a completed exchange (status
plus raw body text) or a thrown exception. -/
inductive FetchResult where
  | success (status : Nat) (body : String)
  | thrown (e : JsException)
deriving Repr

/-- The `catch` clause shared by `makeRequest` and `makeFormDataRequest`:
typed errors are re-thrown unchanged; a `TypeError` whose message mentions
`fetch` becomes the connection error; everything else becomes the
`UNEXPECTED_ERROR` generic API error. -/
def makeRequestCatch (e : JsException) : AlleError :=
  match e with
  | .alleError err => err
  | .typeError msg =>
      if jsIncludesStr msg "fetch" then
        mkConnectionError
          "Could not connect to the API. Please check your internet connection."
          "CONNECTION_ERROR" (some (Js.obj [("originalError", Js.str msg)]))
      else
        mkAPIError ("An unexpected error occurred: " ++ msg) "UNEXPECTED_ERROR"
          none (some (Js.obj [("originalError", Js.str msg)]))
  | .otherError msg =>
      mkAPIError ("An unexpected error occurred: " ++ msg) "UNEXPECTED_ERROR"
        none (some (Js.obj [("originalError", Js.str msg)]))

/-- `makeRequest` (`src/core/AlleAI.ts`), abstracted over the fetch
outcome: non-2xx statuses go through `handleErrorResponse`; a 2xx body that
fails to decode as JSON throws the `INVALID_RESPONSE` error; every typed
error thrown inside the `try` passes through the `catch` unchanged (the
`instanceof AlleAIError` re-throw). -/
def makeRequest (result : FetchResult) : Except AlleError Js :=
  match result with
  | .thrown e => .error (makeRequestCatch e)
  | .success status body =>
      if 200 ≤ status ∧ status < 300 then
        match jsonParse body with
        | some data => .ok data
        | none =>
            .error (mkAPIError "Server returned invalid JSON response"
              "INVALID_RESPONSE" (some status)
              (some (Js.obj [("message", Js.str "Invalid JSON response")])))
      else .error (handleErrorResponse status body)

/-- The chat request as validated by `AlleChat.validateRequestParameters`
(`src/modules/chat.ts`): the validator destructures only `models` and
`messages`; both are dynamic values at runtime. -/
structure ApiRequest where
  models : Js
  messages : Js
deriving Repr

/-- `"models must be a non-empty array of strings"`. -/
def genericModelsMsg : String := "models must be a non-empty array of strings"

/-- `"all elements in models must be strings"`. -/
def allStringsMsg : String := "all elements in models must be strings"

/-- `"messages must be a non-empty array"`. -/
def messagesNonEmptyMsg : String := "messages must be a non-empty array"

/-- `!models || !Array.isArray(models) || models.length === 0` — this exact
check opens every operation of the client (chat, image, audio, video
modules repeat it verbatim). -/
def modelsMissingOrEmpty (models : Js) : Bool :=
  !(jsTruthy models) || !(jsIsArray models) || (jsArrLen models == 0)

/-- `!models.every((model) => typeof model === "string")`, likewise
repeated verbatim across the modules. -/
def modelsNotAllStrings (models : Js) : Bool :=
  !(jsEvery models (fun m => Js.typeofStr m == "string"))

/-- `!messages || !Array.isArray(messages) || messages.length === 0`. -/
def messagesMissingOrEmpty (messages : Js) : Bool :=
  !(jsTruthy messages) || !(jsIsArray messages) || (jsArrLen messages == 0)

/-- The list of valid content discriminants. -/
def validTypesList : List String := ["text", "audio_url", "image_url", "video_url"]

/-- `validTypes.includes(content.type)` — strict equality against the four
string literals, hence false for every non-string discriminant. -/
def validTypesIncludes (t : Js) : Bool :=
  match t with
  | .str s => validTypesList.contains s
  | _ => false

/-- The message reported when a content object at `path` is not an object
carrying a `type` property. -/
def contentObjMsg (path : String) : String :=
  path ++ " must be an object with a " ++ apos ++ "type" ++ apos ++ " property"

/-- `` `${path}.type must be one of: ${validTypes.join(", ")}` ``. -/
def contentTypeMsg (path : String) : String :=
  path ++ ".type must be one of: " ++ String.intercalate ", " validTypesList

/-- `AlleChat.validateContentObject`. -/
def validateContentObject (content : Js) (path : String) : Option String :=
  if !(jsTruthy content) || !(Js.typeofStr content == "object") ||
      !(jsHasKey content "type") then
    some (contentObjMsg path)
  else if !(validTypesIncludes (jsGet content "type")) then
    some (contentTypeMsg path)
  else none

/-- `` `${key} must be an array of content objects` ``. -/
def keyBlockMsg (key : String) : String :=
  key ++ " must be an array of content objects"

/-- The `msg[key]!.forEach((content, i) => validateContentObject(content,
`${key}[${i}]`))` loop; a thrown error stops the iteration. -/
def forEachContent (key : String) : List Js → Nat → Option String
  | [], _ => none
  | content :: rest, i =>
      match validateContentObject content (key ++ "[" ++ toString i ++ "]") with
      | some e => some e
      | none => forEachContent key rest (i + 1)

/-- One iteration of the `for (const key of ["system", "user"])` loop in
`AlleChat.validateMessageContent`. -/
def keyBlock (msg : Js) (key : String) : Option String :=
  if jsHasKey msg key && jsTruthy (jsGet msg key) then
    if !(jsIsArray (jsGet msg key)) then some (keyBlockMsg key)
    else forEachContent key (jsArrElems (jsGet msg key)) 0
  else none

/-- The system/user loop itself. -/
def sysUserLoop (msg : Js) : List String → Option String
  | [] => none
  | key :: rest =>
      match keyBlock msg key with
      | some e => some e
      | none => sysUserLoop msg rest

/-- `"assistants must be an object mapping models to content arrays"`. -/
def assistantsObjMsg : String :=
  "assistants must be an object mapping models to content arrays"

/-- `` `assistants value at index ${i} must be an array` ``. -/
def assistantValueMsg (i : Nat) : String :=
  "assistants value at index " ++ toString i ++ " must be an array"

/-- `contents.forEach((content, j) => validateContentObject(content,
`assistants value[${j}]`))`. -/
def forEachAssistantContent : List Js → Nat → Option String
  | [], _ => none
  | content :: rest, j =>
      match validateContentObject content ("assistants value[" ++ toString j ++ "]") with
      | some e => some e
      | none => forEachAssistantContent rest (j + 1)

/-- `Object.values(msg.assistants).forEach((contents, i) => ...)`. -/
def forEachAssistantValue : List Js → Nat → Option String
  | [], _ => none
  | contents :: rest, i =>
      match
        (if !(jsIsArray contents) then some (assistantValueMsg i)
         else forEachAssistantContent (jsArrElems contents) 0) with
      | some e => some e
      | none => forEachAssistantValue rest (i + 1)

/-- The `assistants` block of `AlleChat.validateMessageContent`. -/
def assistantsBlock (msg : Js) : Option String :=
  if jsHasKey msg "assistants" && jsTruthy (jsGet msg "assistants") then
    if !(Js.typeofStr (jsGet msg "assistants") == "object") ||
        jsIsArray (jsGet msg "assistants") then
      some assistantsObjMsg
    else forEachAssistantValue (jsObjValues (jsGet msg "assistants")) 0
  else none

/-- `AlleChat.validateMessageContent`: the system/user loop, then the
assistants block. -/
def validateMessageContent (msg : Js) : Option String :=
  match sysUserLoop msg ["system", "user"] with
  | some e => some e
  | none => assistantsBlock msg

/-- `` `messages[${index}] must be an object` ``. -/
def msgObjMsg (i : Nat) : String :=
  "messages[" ++ toString i ++ "] must be an object"

/-- `` `messages[${index}] must have at least one of: system, user,
assistants` ``. -/
def msgKeysMsg (i : Nat) : String :=
  "messages[" ++ toString i ++ "] must have at least one of: system, user, assistants"

/-- The `messages.forEach((msg, index) => ...)` loop of
`AlleChat.validateRequestParameters`; a thrown `ValidationError` stops the
iteration at the first offending entry. -/
def validateMessagesLoop : List Js → Nat → Option String
  | [], _ => none
  | msg :: rest, i =>
      if !(jsTruthy msg) || !(Js.typeofStr msg == "object") then some (msgObjMsg i)
      else if !(jsHasKey msg "system" || jsHasKey msg "user" ||
          jsHasKey msg "assistants") then some (msgKeysMsg i)
      else
        match validateMessageContent msg with
        | some e => some e
        | none => validateMessagesLoop rest (i + 1)

/-- `AlleChat.validateRequestParameters`: models checks, messages list
check, then the per-entry loop; `some msg` is the message of the thrown
`ValidationError`, `none` means the request was accepted. -/
def validateRequestParameters (r : ApiRequest) : Option String :=
  if modelsMissingOrEmpty r.models then some genericModelsMsg
  else if modelsNotAllStrings r.models then some allStringsMsg
  else if messagesMissingOrEmpty r.messages then some messagesNonEmptyMsg
  else validateMessagesLoop (jsArrElems r.messages) 0

/-- `AlleChat.completions`: validate, then exactly one transport call.
`Except.ok (endpoint, body)` records the single `makeRequest` invocation;
`Except.error` means the validator threw before any transport call. -/
def completions (r : ApiRequest) : Except AlleError (String × ApiRequest) :=
  match validateRequestParameters r with
  | some m => .error (mkValidationError m)
  | none => .ok ("/chat/completions", r)

/-- `AlleChat.combination`. -/
def combination (r : ApiRequest) : Except AlleError (String × ApiRequest) :=
  match validateRequestParameters r with
  | some m => .error (mkValidationError m)
  | none => .ok ("/chat/combination", r)

/-- `AlleChat.comparison`: in the source the call to
`validateRequestParameters` is commented out, so every request goes
straight to the transport. -/
def comparison (r : ApiRequest) : Except AlleError (String × ApiRequest) :=
  .ok ("/chat/comparison", r)

/-- `AlleChat.search`. -/
def search (r : ApiRequest) : Except AlleError (String × ApiRequest) :=
  match validateRequestParameters r with
  | some m => .error (mkValidationError m)
  | none => .ok ("/ai/web-search", r)

/-- Apply a JavaScript destructuring default: substituted only when the
field is `undefined` (not when it is `null`). -/
def jsDefault (v d : Js) : Js :=
  match v with
  | .undefined => d
  | _ => v

/-- Characters removed by `String.prototype.trim` (the whitespace the
source can meet in practice). -/
def isTrimWs (c : Char) : Bool :=
  c = ' ' || c = '\t' || c = '\n' || c = '\r'

/-- `s.trim()`. -/
def jsTrim (s : String) : String :=
  String.mk (((s.data.dropWhile isTrimWs).reverse.dropWhile isTrimWs).reverse)

/-- Fuel-indexed worker for `String.prototype.split` with a non-empty
string separator. -/
def jsSplitAux (sep : List Char) : Nat → List Char → List Char → List (List Char)
  | 0, cs, acc => [acc.reverse ++ cs]
  | fuel + 1, cs, acc =>
      match cs with
      | [] => [acc.reverse]
      | c :: rest =>
          if sep.isPrefixOf cs && !sep.isEmpty then
            acc.reverse :: jsSplitAux sep fuel (cs.drop sep.length) []
          else jsSplitAux sep fuel rest (c :: acc)

/-- `s.split(sep)` for a non-empty string separator. -/
def jsSplit (s sep : String) : List String :=
  (jsSplitAux sep.data (s.length + 1) s.data []).map String.mk

/-- `"prompt must be a non-empty string"`. -/
def promptMsg : String := "prompt must be a non-empty string"

/-- `!p || typeof p !== "string" || p.trim() === ""` (shared by the image,
audio and video modules, which repeat it verbatim). -/
def strFieldBad (p : Js) : Bool :=
  !(jsTruthy p) || !(Js.typeofStr p == "string") ||
    (match p with
     | .str s => jsTrim s == ""
     | _ => false)

/-- `typeof v !== "number" || !Number.isInteger(v) || v < bound`. -/
def notIntAtLeast (v : Js) (bound : Rat) : Bool :=
  !(Js.typeofStr v == "number") ||
    !(match v with
      | .num q => q.den == 1
      | _ => false) ||
    (match v with
     | .num q => decide (q < bound)
     | _ => false)

/-- `seed !== null && seed !== undefined && (typeof seed !== "number" ||
!Number.isInteger(seed))`. -/
def seedBad (seed : Js) : Bool :=
  match seed with
  | .null => false
  | .undefined => false
  | s =>
      !(Js.typeofStr s == "number") ||
        !(match s with
          | .num q => q.den == 1
          | _ => false)

/-- The image-generation request (`ImageGenerate` in `src/types.ts`), with
every field a dynamic value. -/
structure ImageGenerateReq where
  models : Js
  prompt : Js
  width : Js
  height : Js
  n : Js
  style_preset : Js
  seed : Js
  model_specific_params : Js
deriving Repr

/-- `AlleImage.generate` (`src/modules/Image.ts`): destructuring defaults,
the validation chain, then one `makeRequest("/image/generate", body)` call
recorded as `Except.ok`. -/
def imageGenerate (r : ImageGenerateReq) : Except AlleError (String × Js) :=
  let width := jsDefault r.width (Js.num 1024)
  let height := jsDefault r.height (Js.num 1024)
  let n := jsDefault r.n (Js.num 1)
  let style_preset := jsDefault r.style_preset Js.null
  let seed := jsDefault r.seed Js.null
  let msp := jsDefault r.model_specific_params (Js.obj [])
  if modelsMissingOrEmpty r.models then .error (mkValidationError genericModelsMsg)
  else if modelsNotAllStrings r.models then .error (mkValidationError allStringsMsg)
  else if strFieldBad r.prompt then .error (mkValidationError promptMsg)
  else if notIntAtLeast width 64 then
    .error (mkValidationError "width must be an integer >= 64")
  else if notIntAtLeast height 64 then
    .error (mkValidationError "height must be an integer >= 64")
  else if notIntAtLeast n 1 then
    .error (mkValidationError "n must be an integer >= 1")
  else if seedBad seed then
    .error (mkValidationError "seed must be an integer or null")
  else if (match style_preset with
           | .null => false
           | .undefined => false
           | s => !(Js.typeofStr s == "string")) then
    .error (mkValidationError "style_preset must be a string or null")
  else if (match msp with
           | .undefined => false
           | .null => true
           | m => !(Js.typeofStr m == "object")) then
    .error (mkValidationError "model_specific_params must be an object")
  else
    .ok ("/image/generate", Js.obj
      [("models", r.models), ("prompt", r.prompt), ("width", width),
       ("height", height), ("n", n), ("style_preset", style_preset),
       ("seed", seed), ("model_specific_params", msp)])

/-- The image-edit request (`ImageEdit` in `src/types.ts`). -/
structure ImageEditReq where
  models : Js
  prompt : Js
  image_file : Js
deriving Repr

/-- Outcome of the `processFile` collaborator (`src/utils.ts`): the
resolved filename, or a thrown `Error` with its message. -/
inductive PFOutcome where
  | ok (filename : String)
  | throwsErr (msg : String)
deriving Repr

/-- Outcome of the transport collaborator inside the `try` block of an
operation: the decoded response, or a thrown exception (typed or not). -/
inductive TransportOutcome where
  | ok (response : Js)
  | throwsExc (e : JsException)
deriving Repr

/-- `AlleImage.edit`: validation, then a `try` block covering `processFile`,
the FormData construction and the `makeFormDataRequest` call, whose `catch`
rethrows EVERY error — typed transport errors included — as
`new ValidationError("Failed to process image file: " + message)`.  The
FormData appends have no observable effect on this control flow and are
elided. -/
def imageEdit (r : ImageEditReq) (pf : PFOutcome) (transport : TransportOutcome) :
    Except AlleError Js :=
  if modelsMissingOrEmpty r.models then .error (mkValidationError genericModelsMsg)
  else if modelsNotAllStrings r.models then .error (mkValidationError allStringsMsg)
  else if strFieldBad r.prompt then .error (mkValidationError promptMsg)
  else if strFieldBad r.image_file then
    .error (mkValidationError "image_file must be a non-empty string")
  else
    match pf with
    | .throwsErr m =>
        .error (mkValidationError ("Failed to process image file: " ++ m))
    | .ok _ =>
        match transport with
        | .ok resp => .ok resp
        | .throwsExc e =>
            .error (mkValidationError ("Failed to process image file: " ++ excMessage e))

/-- The audio-generation request (`audioGenerateTypes` in
`src/types.ts`). -/
structure AudioGenerateReq where
  models : Js
  prompt : Js
  model_specific_params : Js
deriving Repr

/-- `model_specific_params !== undefined && typeof model_specific_params
!== "object"` (audio and video modules; note no null check here, unlike
image generate). -/
def mspNotObject (msp : Js) : Bool :=
  match msp with
  | .undefined => false
  | m => !(Js.typeofStr m == "object")

/-- `AlleAudio.generate` (`src/modules/Audio.ts`). -/
def audioGenerate (r : AudioGenerateReq) : Except AlleError (String × Js) :=
  let msp := jsDefault r.model_specific_params (Js.obj [])
  if modelsMissingOrEmpty r.models then .error (mkValidationError genericModelsMsg)
  else if modelsNotAllStrings r.models then .error (mkValidationError allStringsMsg)
  else if strFieldBad r.prompt then .error (mkValidationError promptMsg)
  else if mspNotObject msp then
    .error (mkValidationError "model_specific_params must be an object")
  else
    .ok ("/audio/generate", Js.obj
      [("models", r.models), ("prompt", r.prompt), ("model_specific_params", msp)])

/-- The text-to-speech request (`ttsTypes` in `src/types.ts`). -/
structure TtsReq where
  models : Js
  prompt : Js
  voice : Js
  model_specific_params : Js
deriving Repr

/-- The single-model message of `AlleAudio.tts`. -/
def ttsMultiMsg : String :=
  "Only one model is supported for text-to-speech processing at this time"

/-- The single-model message of `AlleAudio.stt`. -/
def sttMultiMsg : String :=
  "Only one model is supported for speech-to-text processing at this time"

/-- `AlleAudio.tts`. -/
def tts (r : TtsReq) : Except AlleError (String × Js) :=
  let voice := jsDefault r.voice (Js.str "nova")
  let msp := jsDefault r.model_specific_params (Js.obj [])
  if modelsMissingOrEmpty r.models then .error (mkValidationError genericModelsMsg)
  else if modelsNotAllStrings r.models then .error (mkValidationError allStringsMsg)
  else if jsArrLen r.models > 1 then .error (mkValidationError ttsMultiMsg)
  else if strFieldBad r.prompt then .error (mkValidationError promptMsg)
  else if jsTruthy voice && !(Js.typeofStr voice == "string") then
    .error (mkValidationError "voice must be a string")
  else if mspNotObject msp then
    .error (mkValidationError "model_specific_params must be an object")
  else
    .ok ("/audio/tts", Js.obj
      [("models", r.models), ("prompt", r.prompt), ("voice", voice),
       ("model_specific_params", msp)])

/-- The speech-to-text request (`sttTypes` in `src/types.ts`). -/
structure SttReq where
  models : Js
  audio_file : Js
  model_specific_params : Js
deriving Repr

/-- `AlleAudio.stt`: validation, then a `try` block covering `processFile`,
the FormData construction and the `makeFormDataRequest` call, whose `catch`
rethrows every error as `` new ValidationError(` ${message}`) `` (note the
leading space in the template literal). -/
def stt (r : SttReq) (pf : PFOutcome) (transport : TransportOutcome) :
    Except AlleError Js :=
  let msp := jsDefault r.model_specific_params (Js.obj [])
  if modelsMissingOrEmpty r.models then .error (mkValidationError genericModelsMsg)
  else if modelsNotAllStrings r.models then .error (mkValidationError allStringsMsg)
  else if jsArrLen r.models > 1 then .error (mkValidationError sttMultiMsg)
  else if strFieldBad r.audio_file then
    .error (mkValidationError "audio_file must be a non-empty string")
  else if mspNotObject msp then
    .error (mkValidationError "model_specific_params must be an object")
  else
    match pf with
    | .throwsErr m => .error (mkValidationError (" " ++ m))
    | .ok _ =>
        match transport with
        | .ok resp => .ok resp
        | .throwsExc e => .error (mkValidationError (" " ++ excMessage e))

/-- The outcome of `AlleVideo.generate`: the single transport call, a
thrown typed `ValidationError`, or an untyped JavaScript `TypeError`
escaping the validator. -/
inductive VideoResult where
  | calls (endpoint : String) (body : Js)
  | typedErr (e : AlleError)
  | untypedErr (msg : String)
deriving Repr

/-- Whether a video outcome is an escaped untyped exception. -/
def VideoResult.isUntyped : VideoResult → Bool
  | .untypedErr _ => true
  | _ => false

/-- The text-to-video request (`TextToVideoTypes` in `src/types.ts`).  The
source field `aspect_ratio` is named `aspectRatioField` here. -/
structure VideoGenerateReq where
  models : Js
  prompt : Js
  duration : Js
  loop : Js
  aspectRatioField : Js
  fps : Js
  dimension : Js
  resolution : Js
  seed : Js
  model_specific_params : Js
deriving Repr

/-- `Number(s)` on a string: empty/whitespace-only strings convert to 0;
otherwise an optional sign followed by digits with an optional decimal
fraction; `none` models NaN.  (Exponents and hex literals are outside this
model.) -/
def jsStringToNumber (s : String) : Option Rat :=
  let t := jsTrim s
  if t == "" then some 0
  else
    let p := match t.data with
      | c :: rest =>
          if c = '-' then (some true, rest)
          else if c = '+' then (some false, rest)
          else (some false, t.data)
      | [] => (none, [])
    match p.1 with
    | none => none
    | some neg =>
        let ds := p.2.takeWhile Char.isDigit
        let rest := p.2.dropWhile Char.isDigit
        let val : Option Rat :=
          match rest with
          | [] => if ds.isEmpty then none else some ((digitsToNat ds : Nat) : Rat)
          | '.' :: frac =>
              let fs := frac.takeWhile Char.isDigit
              let rest2 := frac.dropWhile Char.isDigit
              if !rest2.isEmpty then none
              else if ds.isEmpty && fs.isEmpty then none
              else some (((digitsToNat ds : Nat) : Rat) +
                ((digitsToNat fs : Nat) : Rat) / ((10 : Rat) ^ fs.length))
          | _ => none
        match val with
        | none => none
        | some q => some (if neg then -q else q)

/-- `isNaN(Number(s))`. -/
def isNaNNumber (s : String) : Bool :=
  (jsStringToNumber s).isNone

/-- `!w` for `const [w, h] = parts` where a part may be missing
(`undefined`) or empty. -/
def strFalsyOpt : Option String → Bool
  | none => true
  | some s => s == ""

/-- `isNaN(Number(w))` guarded the JavaScript way: when `w` is `undefined`
the preceding `!w` disjunct already decided the condition, so the value
here is irrelevant; `Number(undefined)` is NaN. -/
def isNaNOpt : Option String → Bool
  | none => true
  | some s => isNaNNumber s

/-- One step of the video validator. -/
inductive CheckStep where
  | pass
  | fail (msg : String)
  | crash (msg : String)
deriving Repr

/-- The `aspect_ratio`/`dimension` pattern of `AlleVideo.generate`:
`if (x !== undefined) { const [w, h] = x.split(sep); if (!w || !h ||
isNaN(Number(w)) || isNaN(Number(h))) throw ... }`.  Calling `.split` on a
non-string value throws an untyped `TypeError` — the source performs no
`typeof` check on these two fields (unlike its `duration`/`fps`/`seed`
siblings). -/
def splitFormatCheck (v : Js) (sep : String) (name failMsg : String) : CheckStep :=
  match v with
  | .undefined => .pass
  | .str s =>
      let parts := jsSplit s sep
      let w := parts.get? 0
      let h := parts.get? 1
      if strFalsyOpt w || strFalsyOpt h || isNaNOpt w || isNaNOpt h then
        .fail failMsg
      else .pass
  | _ => .crash (name ++ ".split is not a function")

/-- The format message for the aspect-ratio field (quoting width:height
and 16:9 in apostrophes). -/
def aspectRatioMsg : String :=
  "aspect_ratio must be in the format " ++ apos ++ "width:height" ++ apos ++
    " (e.g., " ++ apos ++ "16:9" ++ apos ++ ")"

/-- The format message for the dimension field (quoting widthxheight and
1280x720 in apostrophes). -/
def dimensionMsg : String :=
  "dimension must be in the format " ++ apos ++ "widthxheight" ++ apos ++
    " (e.g., " ++ apos ++ "1280x720" ++ apos ++ ")"

/-- `duration`/`fps` check: `typeof v !== "number" || v <= 0` (applied
after the destructuring default, so `undefined` never reaches it, but the
source still guards with `!== undefined`). -/
def posNumberBad (v : Js) : Bool :=
  match v with
  | .undefined => false
  | x =>
      !(Js.typeofStr x == "number") ||
        (match x with
         | .num q => decide (q ≤ 0)
         | _ => false)

/-- `seed !== undefined && (typeof seed !== "number" ||
!Number.isInteger(seed))` (video variant: no null escape). -/
def videoSeedBad (seed : Js) : Bool :=
  match seed with
  | .undefined => false
  | s =>
      !(Js.typeofStr s == "number") ||
        !(match s with
          | .num q => q.den == 1
          | _ => false)

/-- `loop !== undefined && typeof loop !== "boolean"`. -/
def loopBad (l : Js) : Bool :=
  match l with
  | .undefined => false
  | x => !(Js.typeofStr x == "boolean")

/-- `AlleVideo.generate` (`src/modules/Video.ts`): destructuring defaults
(`duration = 6`, `loop = false`, `aspect_ratio = "16:9"`, `fps = 24`,
`model_specific_params = \x7b\x7d`), the validation chain, then one
`makeRequest("/video/generate", body)` call. -/
def videoGenerate (r : VideoGenerateReq) : VideoResult :=
  let duration := jsDefault r.duration (Js.num 6)
  let loop := jsDefault r.loop (Js.bool false)
  let aspect := jsDefault r.aspectRatioField (Js.str "16:9")
  let fps := jsDefault r.fps (Js.num 24)
  let msp := jsDefault r.model_specific_params (Js.obj [])
  if modelsMissingOrEmpty r.models then .typedErr (mkValidationError genericModelsMsg)
  else if modelsNotAllStrings r.models then .typedErr (mkValidationError allStringsMsg)
  else if strFieldBad r.prompt then .typedErr (mkValidationError promptMsg)
  else if posNumberBad duration then
    .typedErr (mkValidationError "duration must be a positive number")
  else if loopBad loop then .typedErr (mkValidationError "loop must be a boolean")
  else
    match splitFormatCheck aspect ":" "aspect_ratio" aspectRatioMsg with
    | .crash m => .untypedErr m
    | .fail m => .typedErr (mkValidationError m)
    | .pass =>
        if posNumberBad fps then
          .typedErr (mkValidationError "fps must be a positive number")
        else
          match splitFormatCheck r.dimension "x" "dimension" dimensionMsg with
          | .crash m => .untypedErr m
          | .fail m => .typedErr (mkValidationError m)
          | .pass =>
              if videoSeedBad r.seed then
                .typedErr (mkValidationError "seed must be an integer")
              else if mspNotObject msp then
                .typedErr (mkValidationError "model_specific_params must be an object")
              else
                .calls "/video/generate" (Js.obj
                  [("models", r.models), ("prompt", r.prompt),
                   ("duration", duration), ("loop", loop),
                   ("aspect_ratio", aspect), ("fps", fps),
                   ("dimension", r.dimension), ("resolution", r.resolution),
                   ("seed", r.seed), ("model_specific_params", msp)])

/-- First-error composition used to state the validation order. -/
def optOrElse (a b : Option String) : Option String :=
  match a with
  | some e => some e
  | none => b

/-- Stated after the wording of the spec (validation order): the `models` sub-checks on
their own. -/
def specModelsCheck (models : Js) : Option String :=
  if modelsMissingOrEmpty models then some genericModelsMsg
  else if modelsNotAllStrings models then some allStringsMsg
  else none

/-- Stated after the wording of the spec: the `messages`-list non-emptiness check on
its own. -/
def specMessagesListCheck (messages : Js) : Option String :=
  if messagesMissingOrEmpty messages then some messagesNonEmptyMsg else none

/-- Stated after the wording of the spec: within one message entry the checks run in
the fixed order object-shape, key-presence, `system`, `user`,
`assistants`, and the first failure wins. -/
def specEntryCheck (msg : Js) (i : Nat) : Option String :=
  optOrElse
    (if !(jsTruthy msg) || !(Js.typeofStr msg == "object") then some (msgObjMsg i) else none)
    (optOrElse
      (if !(jsHasKey msg "system" || jsHasKey msg "user" || jsHasKey msg "assistants")
       then some (msgKeysMsg i) else none)
      (optOrElse (keyBlock msg "system")
        (optOrElse (keyBlock msg "user") (assistantsBlock msg))))

/-- Stated after the wording of the spec: message entries are checked in sequence
order, and the first failing entry is reported. -/
def specEntriesCheck : List Js → Nat → Option String
  | [], _ => none
  | msg :: rest, i => optOrElse (specEntryCheck msg i) (specEntriesCheck rest (i + 1))

/-- Stated after the wording of the spec: `models` before `messages` before the
per-entry checks, first violation wins, never an aggregate. -/
def firstViolationOrdered (r : ApiRequest) : Option String :=
  optOrElse (specModelsCheck r.models)
    (optOrElse (specMessagesListCheck r.messages)
      (specEntriesCheck (jsArrElems r.messages) 0))

/-- State-passing form of `AlleChat.validateRequestParameters`: the source
function only destructures and reads the request (there is no assignment to
the request or any of its members anywhere in the validator), so the
explicit-state embedding returns the request value unchanged alongside the
verdict. -/
def validateRequestParametersRun (r : ApiRequest) : Option String × ApiRequest :=
  (validateRequestParameters r, r)

/-- Stated after the wording of the spec: the status-to-kind column of the
fixed classification table. -/
def specStatusKind (status : Nat) : ErrKind :=
  if status = 400 then .invalidRequest
  else if status = 401 then .authentication
  else if status = 403 then .authentication
  else if status = 404 then .api
  else if status = 429 then .rateLimit
  else if status = 500 ∨ status = 502 ∨ status = 503 ∨ status = 504 then .serviceUnavailable
  else .api

/-- Stated after the wording of the spec: the status-to-code column of the
fixed classification table. -/
def specStatusCode (status : Nat) : String :=
  if status = 400 then "INVALID_REQUEST"
  else if status = 401 then "AUTH_ERROR"
  else if status = 403 then "PERMISSION_DENIED"
  else if status = 404 then "RESOURCE_NOT_FOUND"
  else if status = 429 then "RATE_LIMIT"
  else if status = 500 ∨ status = 502 ∨ status = 503 ∨ status = 504 then "SERVICE_ERROR"
  else "API_ERROR_" ++ toString status

/-- The status value actually stored in the status field of the thrown
error: the error classes fix it per subclass, so 403 is carried as 401 and
500/502/504 are carried as 503; all other table rows carry the original
status. -/
def specCarriedStatus (status : Nat) : Nat :=
  if status = 400 then 400
  else if status = 401 then 401
  else if status = 403 then 401
  else if status = 404 then 404
  else if status = 429 then 429
  else if status = 500 ∨ status = 502 ∨ status = 503 ∨ status = 504 then 503
  else status

/-- Whether a dynamic value is a string or absent — the domain on which the
aspect-ratio and dimension checks of the video validator cannot throw. -/
def strOrAbsent : Js → Bool
  | .undefined => true
  | .str _ => true
  | _ => false

/-- Helper: the per-entry message loop of the source equals the ordered
first-violation composition, entry by entry. -/
theorem validateMessagesLoop_eq_specEntriesCheck :
    ∀ (xs : List Js) (i : Nat), validateMessagesLoop xs i = specEntriesCheck xs i := by
  intro xs
  induction xs with
  | nil => intro i; rfl
  | cons msg rest ih =>
      intro i
      cases hA : (!(jsTruthy msg) || !(Js.typeofStr msg == "object")) <;>
        cases hB : (!(jsHasKey msg "system" || jsHasKey msg "user" ||
          jsHasKey msg "assistants")) <;>
        cases hs : keyBlock msg "system" <;>
        cases hu : keyBlock msg "user" <;>
        cases ha : assistantsBlock msg <;>
        simp [validateMessagesLoop, specEntriesCheck, specEntryCheck, optOrElse,
          validateMessageContent, sysUserLoop, hA, hB, hs, hu, ha, ih]

/-- Helper: on a string or absent value the split-format check never
produces an untyped crash. -/
theorem splitFormatCheck_no_crash :
    ∀ (v : Js) (sep name m : String), strOrAbsent v = true →
    ∀ k, splitFormatCheck v sep name m ≠ CheckStep.crash k := by
  intro v sep name m hv k
  cases v <;> simp_all [strOrAbsent, splitFormatCheck]
  split <;> simp

/-- C1 (amended): for every operation that validates — chat completions,
combination and search, image generate and edit, audio generate, tts and
stt, video generate — a request whose models field is missing, not an
array, or an empty array fails validation with the message
"models must be a non-empty array of strings" and no transport call is
made; the comparison operation, whose validation call is commented out in
the source, instead forwards every request (valid or not) to the
transport. -/
theorem models_check_blocks_transport :
    ∀ (ms me p f v a w h n sp sd msp d l ar fp dim res : Js)
      (pf : PFOutcome) (tr : TransportOutcome),
    modelsMissingOrEmpty ms = true →
    completions ⟨ms, me⟩ = .error (mkValidationError genericModelsMsg) ∧
    combination ⟨ms, me⟩ = .error (mkValidationError genericModelsMsg) ∧
    search ⟨ms, me⟩ = .error (mkValidationError genericModelsMsg) ∧
    imageGenerate ⟨ms, p, w, h, n, sp, sd, msp⟩ = .error (mkValidationError genericModelsMsg) ∧
    imageEdit ⟨ms, p, f⟩ pf tr = .error (mkValidationError genericModelsMsg) ∧
    audioGenerate ⟨ms, p, msp⟩ = .error (mkValidationError genericModelsMsg) ∧
    tts ⟨ms, p, v, msp⟩ = .error (mkValidationError genericModelsMsg) ∧
    stt ⟨ms, a, msp⟩ pf tr = .error (mkValidationError genericModelsMsg) ∧
    videoGenerate ⟨ms, p, d, l, ar, fp, dim, res, sd, msp⟩ =
      .typedErr (mkValidationError genericModelsMsg) ∧
    (∀ r : ApiRequest, comparison r = .ok ("/chat/comparison", r)) := by
  intro ms me p f v a w h n sp sd msp d l ar fp dim res pf tr hm
  refine ⟨?_, ?_, ?_, ?_, ?_, ?_, ?_, ?_, ?_, fun r => rfl⟩ <;>
    simp [completions, combination, search, imageGenerate, imageEdit, audioGenerate,
      tts, stt, videoGenerate, validateRequestParameters, hm]

/-- Witness for C1 at a concrete empty models list. -/
theorem models_check_blocks_transport_witness :
    modelsMissingOrEmpty (Js.arr []) = true ∧
    completions ⟨Js.arr [], Js.undefined⟩ = .error (mkValidationError genericModelsMsg) ∧
    videoGenerate ⟨Js.arr [], Js.undefined, Js.undefined, Js.undefined, Js.undefined, Js.undefined,
      Js.undefined, Js.undefined, Js.undefined, Js.undefined⟩ =
      .typedErr (mkValidationError genericModelsMsg) := by
  have h := models_check_blocks_transport (Js.arr []) Js.undefined Js.undefined Js.undefined
    Js.undefined Js.undefined Js.undefined Js.undefined Js.undefined Js.undefined Js.undefined Js.undefined Js.undefined
    Js.undefined Js.undefined Js.undefined Js.undefined Js.undefined (.ok "") (.ok Js.null) rfl
  exact ⟨rfl, h.1, h.2.2.2.2.2.2.2.2.1⟩

/-- Counterexample to C1 as stated: the comparison operation, with an
empty models array, makes its transport call (one invocation, not zero)
and raises no validation error. -/
theorem comparison_skips_validation_cex :
    modelsMissingOrEmpty (Js.arr []) = true ∧
    comparison ⟨Js.arr [], Js.arr []⟩ =
      .ok ("/chat/comparison", (⟨Js.arr [], Js.arr []⟩ : ApiRequest)) :=
  ⟨rfl, rfl⟩

/-- C2 (amended): for every non-2xx exchange the classifier throws the
kind and machine code of the fixed table, with the derived message and a
details object carrying the derived message and the original status; the
status field of the thrown error, however, is the status fixed by the
error class, which equals the original status in every row except 403
(carried as 401) and 500/502/504 (carried as 503). -/
theorem status_table_classification :
    ∀ (status : Nat) (body : String),
    (handleErrorResponse status body).kind = specStatusKind status ∧
    (handleErrorResponse status body).code = specStatusCode status ∧
    (handleErrorResponse status body).status = some (specCarriedStatus status) ∧
    (handleErrorResponse status body).message = jsToString (deriveErrorMessage status body) ∧
    (handleErrorResponse status body).details =
      some (Js.obj [("message", deriveErrorMessage status body), ("status", Js.num status)]) := by
  intro status body
  refine ⟨?_, ?_, ?_, ?_, ?_⟩ <;>
  · simp only [handleErrorResponse, specStatusKind, specStatusCode, specCarriedStatus,
      mkInvalidRequestError, mkAuthenticationError, mkAPIError, mkRateLimitError,
      mkServiceUnavailableError]
    split_ifs <;> simp_all

/-- Counterexample to C2 as stated: a 403 response yields an error whose
status field is 401, not the original 403, and a 502 response yields 503. -/
theorem status403_status_field_cex :
    (handleErrorResponse 403 "").status = some 401 ∧ some 401 ≠ some 403 ∧
    (handleErrorResponse 502 "").status = some 503 ∧ some 503 ≠ some 502 :=
  ⟨rfl, by decide, rfl, by decide⟩

/-- C3 (code bug): a typed rate-limit error thrown by the transport inside
image edit is not re-raised unchanged — the catch block wraps it into a
ValidationError with the new message "Failed to process image file: ...";
speech-to-text likewise wraps it into a ValidationError whose message is
the original message prefixed with a space. -/
theorem image_edit_wraps_typed_transport_error :
    imageEdit ⟨Js.arr [Js.str "dall-e-3"], Js.str "Add a sunset", Js.str "input.png"⟩
      (.ok "input.png")
      (.throwsExc (.alleError (mkRateLimitError "Rate limit exceeded" "RATE_LIMIT" none))) =
      .error (mkValidationError "Failed to process image file: Rate limit exceeded") ∧
    (mkValidationError "Failed to process image file: Rate limit exceeded").kind ≠
      (mkRateLimitError "Rate limit exceeded" "RATE_LIMIT" none).kind ∧
    stt ⟨Js.arr [Js.str "gpt-4o-transcribe"], Js.str "audio.mp3", Js.undefined⟩
      (.ok "audio.mp3")
      (.throwsExc (.alleError (mkRateLimitError "Rate limit exceeded" "RATE_LIMIT" none))) =
      .error (mkValidationError " Rate limit exceeded") :=
  ⟨rfl, by decide, rfl⟩

/-- C4 (amended): the derived message is the fixed fallback when the body
contains the HTML markers, when it fails to parse as JSON, or when reading
the raw details field of a parsed body leads (by HTML detection or a
thrown property error) back to the fallback; a parsed body with a truthy
message field yields that field, a truthy error field yields the error
(stringified when not a string); a parsed body with neither field keeps
the initial "Request failed with status: N" message — not the fallback. -/
theorem derive_message_branches :
    ∀ (status : Nat) (body : String),
    (htmlLike body = true → deriveErrorMessage status body = Js.str fallbackMsg) ∧
    (htmlLike body = false → jsonParse body = none →
      deriveErrorMessage status body = Js.str fallbackMsg) ∧
    (∀ j, htmlLike body = false → jsonParse body = some j →
      rawHtmlOutcome j = Except.error () →
      deriveErrorMessage status body = Js.str fallbackMsg) ∧
    (∀ j, htmlLike body = false → jsonParse body = some j →
      rawHtmlOutcome j = Except.ok true →
      deriveErrorMessage status body = Js.str fallbackMsg) ∧
    (∀ j, htmlLike body = false → jsonParse body = some j →
      rawHtmlOutcome j = Except.ok false → jsTruthy (jsGet j "message") = true →
      deriveErrorMessage status body = jsGet j "message") ∧
    (∀ j, htmlLike body = false → jsonParse body = some j →
      rawHtmlOutcome j = Except.ok false → jsTruthy (jsGet j "message") = false →
      jsTruthy (jsGet j "error") = true →
      deriveErrorMessage status body =
        (match jsGet j "error" with
         | Js.str s => Js.str s
         | e => Js.str (jsonStringify e))) ∧
    (∀ j, htmlLike body = false → jsonParse body = some j →
      rawHtmlOutcome j = Except.ok false → jsTruthy (jsGet j "message") = false →
      jsTruthy (jsGet j "error") = false →
      deriveErrorMessage status body =
        Js.str ("Request failed with status: " ++ toString status)) := by
  intro status body
  refine ⟨fun h1 => by simp [deriveErrorMessage, h1],
    fun h1 h2 => by simp [deriveErrorMessage, h1, h2],
    fun j h1 h2 h3 => by simp [deriveErrorMessage, h1, h2, h3],
    fun j h1 h2 h3 => by simp [deriveErrorMessage, h1, h2, h3],
    fun j h1 h2 h3 h4 => by simp [deriveErrorMessage, h1, h2, h3, h4],
    fun j h1 h2 h3 h4 h5 => by simp [deriveErrorMessage, h1, h2, h3, h4, h5],
    fun j h1 h2 h3 h4 h5 => by simp [deriveErrorMessage, h1, h2, h3, h4, h5]⟩

/-- Witness for C4: a 400 body with a message field yields that message. -/
theorem derive_message_branches_witness :
    deriveErrorMessage 400 "\x7b\"message\":\"bad field\"\x7d" = Js.str "bad field" := by
  have h := (derive_message_branches 400 "\x7b\"message\":\"bad field\"\x7d").2.2.2.2.1
    (Js.obj [("message", Js.str "bad field")]) rfl rfl rfl rfl
  exact h

/-- Counterexample to C4 as stated: the body consisting of an empty JSON
object parses, has neither a message nor an error field, and the derived
message is the default status message — not the fixed fallback the claim
prescribes for this case. -/
theorem parsed_body_without_fields_cex :
    deriveErrorMessage 400 "\x7b\x7d" = Js.str ("Request failed with status: 400") ∧
    "Request failed with status: 400" ≠ fallbackMsg :=
  ⟨rfl, by decide⟩

/-- C5: a network-layer exception (the TypeError mentioning fetch by which
the source recognises a failed exchange) classifies to the connection
error with code CONNECTION_ERROR, carrying the underlying message as the
originalError detail, with kind connection and no HTTP status — never a
status-based kind. -/
theorem network_exception_connection_error :
    ∀ m : String, jsIncludesStr m "fetch" = true →
    makeRequest (.thrown (.typeError m)) =
      .error (mkConnectionError
        "Could not connect to the API. Please check your internet connection."
        "CONNECTION_ERROR" (some (Js.obj [("originalError", Js.str m)]))) ∧
    (mkConnectionError
        "Could not connect to the API. Please check your internet connection."
        "CONNECTION_ERROR" (some (Js.obj [("originalError", Js.str m)]))).kind =
      ErrKind.connection ∧
    (mkConnectionError
        "Could not connect to the API. Please check your internet connection."
        "CONNECTION_ERROR" (some (Js.obj [("originalError", Js.str m)]))).status = none := by
  intro m h
  refine ⟨?_, rfl, rfl⟩
  simp [makeRequest, makeRequestCatch, h]

/-- Witness for C5 at the canonical browser message. -/
theorem network_exception_connection_error_witness :
    jsIncludesStr "Failed to fetch" "fetch" = true ∧
    makeRequest (.thrown (.typeError "Failed to fetch")) =
      .error (mkConnectionError
        "Could not connect to the API. Please check your internet connection."
        "CONNECTION_ERROR" (some (Js.obj [("originalError", Js.str "Failed to fetch")]))) :=
  ⟨rfl, (network_exception_connection_error "Failed to fetch" rfl).1⟩

/-- C6: the chat validator reports exactly the first violation in the
fixed order — the models checks before the messages-list check, message
entries in sequence order, and within an entry the object-shape and
key-presence checks, then system, then user, then assistants — never an
aggregate or a later violation. -/
theorem validation_reports_first_violation :
    ∀ r : ApiRequest, validateRequestParameters r = firstViolationOrdered r := by
  intro r
  cases h1 : modelsMissingOrEmpty r.models <;>
    cases h2 : modelsNotAllStrings r.models <;>
    cases h3 : messagesMissingOrEmpty r.messages <;>
    simp [validateRequestParameters, firstViolationOrdered, specModelsCheck,
      specMessagesListCheck, optOrElse, h1, h2, h3,
      validateMessagesLoop_eq_specEntriesCheck]

/-- C7: a text-to-speech or speech-to-text request with more than one
model fails with the dedicated single-model message, which differs from
the generic non-empty-array message; a single-element models list never
produces the single-model message. -/
theorem single_model_constraint :
    ∀ (ms : List String) (p v a msp : Js) (s : String)
      (pf : PFOutcome) (tr : TransportOutcome),
    (ms.length > 1 →
      tts ⟨Js.arr (ms.map Js.str), p, v, msp⟩ = .error (mkValidationError ttsMultiMsg) ∧
      stt ⟨Js.arr (ms.map Js.str), a, msp⟩ pf tr = .error (mkValidationError sttMultiMsg)) ∧
    ttsMultiMsg ≠ genericModelsMsg ∧
    sttMultiMsg ≠ genericModelsMsg ∧
    tts ⟨Js.arr [Js.str s], p, v, msp⟩ ≠ .error (mkValidationError ttsMultiMsg) ∧
    stt ⟨Js.arr [Js.str s], a, msp⟩ (.ok "audio.mp3") (.ok Js.null) ≠
      .error (mkValidationError sttMultiMsg) := by
  intro ms p v a msp s pf tr
  refine ⟨fun hlen => ?_, by decide, by decide, ?_, ?_⟩
  · have hne : ms.length ≠ 0 := by omega
    constructor <;>
      simp [tts, stt, modelsMissingOrEmpty, modelsNotAllStrings, jsTruthy, jsIsArray,
        jsArrLen, jsEvery, Js.typeofStr, List.all_map, hne, hlen]
  · simp only [tts]
    split_ifs <;> simp_all [mkValidationError, jsArrLen] <;> decide
  · simp only [stt]
    split_ifs <;> simp_all [mkValidationError, jsArrLen] <;> decide

/-- Witness for C7 at a concrete two-model request. -/
theorem single_model_constraint_witness :
    (["gpt-4o-mini-tts", "nova-tts"] : List String).length > 1 ∧
    tts ⟨Js.arr [Js.str "gpt-4o-mini-tts", Js.str "nova-tts"], Js.str "hello",
      Js.undefined, Js.undefined⟩ = .error (mkValidationError ttsMultiMsg) ∧
    stt ⟨Js.arr [Js.str "gpt-4o-mini-tts", Js.str "nova-tts"], Js.str "a.mp3",
      Js.undefined⟩ (.ok "a.mp3") (.ok Js.null) = .error (mkValidationError sttMultiMsg) := by
  have h := (single_model_constraint ["gpt-4o-mini-tts", "nova-tts"] (Js.str "hello")
    Js.undefined (Js.str "a.mp3") Js.undefined "x" (.ok "a.mp3") (.ok Js.null)).1 (by decide)
  exact ⟨by decide, h.1, h.2⟩

/-- C8 (amended): with a string or absent aspect-ratio and dimension the
video validator always returns normally or raises a typed validation
failure; a non-string value in either field escapes the validator with an
untyped TypeError from the bare split call. -/
theorem video_generate_no_untyped_escape :
    ∀ r : VideoGenerateReq,
    strOrAbsent r.aspectRatioField = true → strOrAbsent r.dimension = true →
    (videoGenerate r).isUntyped = false := by
  intro r h1 h2
  have hd1 : strOrAbsent (jsDefault r.aspectRatioField (Js.str "16:9")) = true := by
    cases hv : r.aspectRatioField <;> simp_all [strOrAbsent, jsDefault]
  simp only [videoGenerate]
  split_ifs <;> try rfl
  all_goals
    cases hA : splitFormatCheck (jsDefault r.aspectRatioField (Js.str "16:9")) ":"
        "aspect_ratio" aspectRatioMsg with
    | crash m => exact absurd hA (splitFormatCheck_no_crash _ _ _ _ hd1 m)
    | fail m => rfl
    | pass =>
        cases hB : splitFormatCheck r.dimension "x" "dimension" dimensionMsg with
        | crash m => exact absurd hB (splitFormatCheck_no_crash _ _ _ _ h2 m)
        | fail m => rfl
        | pass => rfl

/-- Witness for C8 at a concrete string aspect ratio. -/
theorem video_generate_no_untyped_escape_witness :
    strOrAbsent (Js.str "16:9") = true ∧ strOrAbsent Js.undefined = true ∧
    (videoGenerate ⟨Js.arr [Js.str "nova-reel"], Js.str "a nature video", Js.undefined,
      Js.undefined, Js.str "16:9", Js.undefined, Js.undefined, Js.undefined, Js.undefined,
      Js.undefined⟩).isUntyped = false :=
  ⟨rfl, rfl, video_generate_no_untyped_escape _ rfl rfl⟩

/-- Counterexample to C8 as stated: a numeric aspect-ratio value makes the
video validator escape with an untyped TypeError rather than return or
raise a typed validation failure. -/
theorem video_nonstring_format_untyped_cex :
    videoGenerate ⟨Js.arr [Js.str "nova-reel"], Js.str "a nature video",
      Js.undefined, Js.undefined, Js.num 16, Js.undefined, Js.undefined, Js.undefined, Js.undefined, Js.undefined⟩ =
      .untypedErr "aspect_ratio.split is not a function" ∧
    (VideoResult.untypedErr "aspect_ratio.split is not a function").isUntyped = true :=
  ⟨rfl, rfl⟩

/-- C9: validation never mutates the request (the state-passing embedding
returns it unchanged, matching a source that only reads), and validating a
valid request twice produces no error both times. -/
theorem validation_idempotent_no_mutation :
    ∀ r : ApiRequest,
    (validateRequestParametersRun r).2 = r ∧
    ((validateRequestParametersRun r).1 = none →
      (validateRequestParametersRun r).1 = none ∧
      (validateRequestParametersRun ((validateRequestParametersRun r).2)).1 = none) :=
  fun _ => ⟨rfl, fun h => ⟨h, h⟩⟩

/-- Witness for C9 at a concrete valid request. -/
theorem validation_idempotent_no_mutation_witness :
    (validateRequestParametersRun ⟨Js.arr [Js.str "gpt-4o"],
      Js.arr [Js.obj [("user", Js.arr [Js.obj [("type", Js.str "text"),
        ("text", Js.str "hi")]])]]⟩).1 = none ∧
    (validateRequestParametersRun ((validateRequestParametersRun ⟨Js.arr [Js.str "gpt-4o"],
      Js.arr [Js.obj [("user", Js.arr [Js.obj [("type", Js.str "text"),
        ("text", Js.str "hi")]])]]⟩).2)).1 = none ∧
    (validateRequestParametersRun ⟨Js.arr [Js.str "gpt-4o"],
      Js.arr [Js.obj [("user", Js.arr [Js.obj [("type", Js.str "text"),
        ("text", Js.str "hi")]])]]⟩).2 = ⟨Js.arr [Js.str "gpt-4o"],
      Js.arr [Js.obj [("user", Js.arr [Js.obj [("type", Js.str "text"),
        ("text", Js.str "hi")]])]]⟩ := by
  have h := validation_idempotent_no_mutation ⟨Js.arr [Js.str "gpt-4o"],
    Js.arr [Js.obj [("user", Js.arr [Js.obj [("type", Js.str "text"),
      ("text", Js.str "hi")]])]]⟩
  exact ⟨(h.2 rfl).1, (h.2 rfl).2, h.1⟩

/-- C10: once the models checks pass, a chat-family request whose messages
field is missing, not an array, or an empty array fails validation with
the message "messages must be a non-empty array", and completions,
combination and search all report it without a transport call. -/
theorem messages_nonempty_check :
    ∀ (ms me : Js),
    modelsMissingOrEmpty ms = false → modelsNotAllStrings ms = false →
    messagesMissingOrEmpty me = true →
    validateRequestParameters ⟨ms, me⟩ = some messagesNonEmptyMsg ∧
    completions ⟨ms, me⟩ = .error (mkValidationError messagesNonEmptyMsg) ∧
    combination ⟨ms, me⟩ = .error (mkValidationError messagesNonEmptyMsg) ∧
    search ⟨ms, me⟩ = .error (mkValidationError messagesNonEmptyMsg) := by
  intro ms me h1 h2 h3
  have hv : validateRequestParameters ⟨ms, me⟩ = some messagesNonEmptyMsg := by
    simp [validateRequestParameters, h1, h2, h3]
  exact ⟨hv, by simp [completions, hv], by simp [combination, hv], by simp [search, hv]⟩

/-- Witness for C10 at a concrete request with one model and an empty
messages list. -/
theorem messages_nonempty_check_witness :
    modelsMissingOrEmpty (Js.arr [Js.str "gpt-4o"]) = false ∧
    messagesMissingOrEmpty (Js.arr []) = true ∧
    completions ⟨Js.arr [Js.str "gpt-4o"], Js.arr []⟩ =
      .error (mkValidationError messagesNonEmptyMsg) :=
  ⟨rfl, rfl,
    (messages_nonempty_check (Js.arr [Js.str "gpt-4o"]) (Js.arr []) rfl rfl rfl).2.1⟩
